import Mathlib

/-!
Verification of the hexohtml2md conversion script (src/hexo.py) against its
specification.  The script converts statically rendered blog posts (HTML) to
Markdown files with a front-matter header.  We shallowly embed the conversion
core: the timezone normalizer `convert_utc_to_timezone`, the front-matter
renderer `generate_front_matter`, the body converter `html_to_markdown` with
its helper `handle_element`, and the strict metadata extraction performed by
`process_html_file`.  Failure (an uncaught Python exception such as
ValueError, OverflowError, IndexError, TypeError or KeyError) is modelled by
`Option`: `none` means the original code raises.
-/

/-! ## Python string primitives -/

/-- Characters stripped by Python's `str.strip()` / `str.rstrip()`
(ASCII whitespace; exotic Unicode space characters are not modelled since no
input in scope contains them). -/
def isPySpace (c : Char) : Bool :=
  c == ' ' || c == '\t' || c == '\n' || c == '\r' || c == '\x0b' || c == '\x0c'

/-- Python `s.strip()`. -/
def pyStrip (s : String) : String :=
  String.mk (((s.data.dropWhile isPySpace).reverse.dropWhile isPySpace).reverse)

/-- Python `s.rstrip()`. -/
def pyRStrip (s : String) : String :=
  String.mk ((s.data.reverse.dropWhile isPySpace).reverse)

/-- Python `s.startswith(pre)`. -/
def pyStartsWith (s pre : String) : Bool :=
  List.isPrefixOf pre.data s.data

/-- Python `sep.join(l)`. -/
def pyJoin (sep : String) : List String → String
  | [] => ""
  | [a] => a
  | a :: b :: rest => a ++ sep ++ pyJoin sep (b :: rest)

/-- Python `str(x)` for an optional string: `None` renders as the literal
text `None` inside an f-string. -/
def pyStr : Option String → String
  | some s => s
  | none => "None"

/-- Value of a decimal digit character. -/
def digitVal (c : Char) : Nat := c.toNat - 48

/-! ## Proleptic Gregorian calendar arithmetic (model of Python `datetime`)

`datetime` supports years 1..9999; arithmetic leaving that range raises
OverflowError.  Day numbering follows the standard civil-from-days /
days-from-civil algorithms, counting days from 0000-03-01. -/

structure DateTime where
  year : Nat
  month : Nat
  day : Nat
  hour : Nat
  minute : Nat
  second : Nat
  micro : Nat
deriving DecidableEq

def isLeap (y : Nat) : Bool := y % 4 == 0 && (y % 100 != 0 || y % 400 == 0)

def daysInMonth (y m : Nat) : Nat :=
  if m = 2 then (if isLeap y then 29 else 28)
  else if m = 4 ∨ m = 6 ∨ m = 9 ∨ m = 11 then 30
  else 31

/-- Day number of a civil date (days since 0000-03-01). -/
def toDays (y m d : Nat) : Nat :=
  let y1 := y - (if m ≤ 2 then 1 else 0)
  let era := y1 / 400
  let yoe := y1 % 400
  let mp := if m ≤ 2 then m + 9 else m - 3
  let doy := (153 * mp + 2) / 5 + d - 1
  era * 146097 + yoe * 365 + yoe / 4 - yoe / 100 + doy

/-- Civil date (year, month, day) of a day number. -/
def civilFromDays (z : Nat) : Nat × Nat × Nat :=
  let era := z / 146097
  let doe := z % 146097
  let yoe := (doe - doe / 1460 + doe / 36524 - doe / 146096) / 365
  let y := yoe + era * 400
  let doy := doe - (365 * yoe + yoe / 4 - yoe / 100)
  let mp := (5 * doy + 2) / 153
  let d := doy - (153 * mp + 2) / 5 + 1
  let m := if mp < 10 then mp + 3 else mp - 9
  (if m ≤ 2 then y + 1 else y, m, d)

/-- Seconds since the day-numbering epoch. -/
def toSecs (dt : DateTime) : Nat :=
  toDays dt.year dt.month dt.day * 86400 + dt.hour * 3600 + dt.minute * 60 + dt.second

/-- Date-time of a second count, keeping a given microsecond component. -/
def ofSecs (secs : Nat) (mic : Nat) : DateTime :=
  let ymd := civilFromDays (secs / 86400)
  ⟨ymd.1, ymd.2.1, ymd.2.2, secs % 86400 / 3600, secs % 3600 / 60, secs % 60, mic⟩

/-- Last instant representable by Python `datetime` (9999-12-31 23:59:59). -/
def maxSecs : Nat := toSecs ⟨9999, 12, 31, 23, 59, 59, 0⟩

/-- Zero-padded two-digit rendering (`%m`, `%d`, `%H`, `%M`, `%S`).  Only
applied to values below 100. -/
def pad2 (n : Nat) : List Char :=
  [Nat.digitChar (n / 10 % 10), Nat.digitChar (n % 10)]

/-- Zero-padded four-digit rendering (`%Y` as documented by Python).  Only
applied to years below 10000 (the `shiftToZone` guard enforces this). -/
def pad4 (n : Nat) : List Char :=
  [Nat.digitChar (n / 1000 % 10), Nat.digitChar (n / 100 % 10),
   Nat.digitChar (n / 10 % 10), Nat.digitChar (n % 10)]

/-- `local_time.strftime("%Y-%m-%d %H:%M:%S")` (src/hexo.py line 39). -/
def formatDT (dt : DateTime) : String :=
  String.mk (pad4 dt.year ++ '-' :: pad2 dt.month ++ '-' :: pad2 dt.day ++
    ' ' :: pad2 dt.hour ++ ':' :: pad2 dt.minute ++ ':' :: pad2 dt.second)

/-- Recognizer for the output shape `YYYY-MM-DD HH:MM:SS`. -/
def isTimestampFormat (s : String) : Bool :=
  match s.data with
  | [a1, a2, a3, a4, b1, c1, c2, b2, e1, e2, b3, f1, f2, b4, g1, g2, b5, i1, i2] =>
    a1.isDigit && a2.isDigit && a3.isDigit && a4.isDigit && b1 == '-' &&
    c1.isDigit && c2.isDigit && b2 == '-' && e1.isDigit && e2.isDigit &&
    b3 == ' ' && f1.isDigit && f2.isDigit && b4 == ':' && g1.isDigit &&
    g2.isDigit && b5 == ':' && i1.isDigit && i2.isDigit
  | _ => false

/-! ## Timestamp parsing (model of `datetime.strptime`, src/hexo.py 28-31)

The two format strings are `%Y-%m-%dT%H:%M:%S.%f` and `%Y-%m-%dT%H:%M:%S`.
We model the canonical zero-padded field widths the inputs in scope use
(`%Y` is exactly four digits in CPython; `datetime` validation rejects
month 0/13+, invalid days, hour 24+, minute/second 60+ and year 0, which the
range check below reproduces).  `%f` accepts one to six fraction digits,
right-padded to microseconds. -/

def parseWhole (cs : List Char) : Option DateTime :=
  match cs with
  | [y1, y2, y3, y4, p1, m1, m2, p2, d1, d2, pT, h1, h2, p3, n1, n2, p4, s1, s2] =>
    if y1.isDigit && y2.isDigit && y3.isDigit && y4.isDigit && p1 == '-' &&
       m1.isDigit && m2.isDigit && p2 == '-' && d1.isDigit && d2.isDigit &&
       pT == 'T' && h1.isDigit && h2.isDigit && p3 == ':' && n1.isDigit &&
       n2.isDigit && p4 == ':' && s1.isDigit && s2.isDigit then
      let y := digitVal y1 * 1000 + digitVal y2 * 100 + digitVal y3 * 10 + digitVal y4
      let mo := digitVal m1 * 10 + digitVal m2
      let dy := digitVal d1 * 10 + digitVal d2
      let h := digitVal h1 * 10 + digitVal h2
      let mi := digitVal n1 * 10 + digitVal n2
      let se := digitVal s1 * 10 + digitVal s2
      if 1 ≤ y ∧ 1 ≤ mo ∧ mo ≤ 12 ∧ 1 ≤ dy ∧ dy ≤ daysInMonth y mo ∧
         h ≤ 23 ∧ mi ≤ 59 ∧ se ≤ 59 then
        some ⟨y, mo, dy, h, mi, se, 0⟩
      else none
    else none
  | _ => none

def parseFrac (cs : List Char) : Option DateTime :=
  match cs with
  | y1 :: y2 :: y3 :: y4 :: p1 :: m1 :: m2 :: p2 :: d1 :: d2 :: pT :: h1 :: h2 ::
      p3 :: n1 :: n2 :: p4 :: s1 :: s2 :: pd :: frac =>
    if y1.isDigit && y2.isDigit && y3.isDigit && y4.isDigit && p1 == '-' &&
       m1.isDigit && m2.isDigit && p2 == '-' && d1.isDigit && d2.isDigit &&
       pT == 'T' && h1.isDigit && h2.isDigit && p3 == ':' && n1.isDigit &&
       n2.isDigit && p4 == ':' && s1.isDigit && s2.isDigit && pd == '.' &&
       frac.all Char.isDigit then
      let y := digitVal y1 * 1000 + digitVal y2 * 100 + digitVal y3 * 10 + digitVal y4
      let mo := digitVal m1 * 10 + digitVal m2
      let dy := digitVal d1 * 10 + digitVal d2
      let h := digitVal h1 * 10 + digitVal h2
      let mi := digitVal n1 * 10 + digitVal n2
      let se := digitVal s1 * 10 + digitVal s2
      if 1 ≤ y ∧ 1 ≤ mo ∧ mo ≤ 12 ∧ 1 ≤ dy ∧ dy ≤ daysInMonth y mo ∧
         h ≤ 23 ∧ mi ≤ 59 ∧ se ≤ 59 ∧ 1 ≤ frac.length ∧ frac.length ≤ 6 then
        some ⟨y, mo, dy, h, mi, se,
          (frac.foldl (fun a c => 10 * a + digitVal c) 0) * 10 ^ (6 - frac.length)⟩
      else none
    else none
  | _ => none

/-- The try/except of src/hexo.py lines 28-31: attempt the fractional-second
format first, fall back to the whole-second format on ValueError. -/
def parseTimestamp (cs : List Char) : Option DateTime :=
  (parseFrac cs).orElse (fun _ => parseWhole cs)

/-! ## Timezone database (model of `pytz`)

Only the two zone identifiers the program and the spec exercise are
modelled.  Asia/Shanghai is modelled as its modern standard offset UTC+8:
China has observed no DST since 1991-09-15 and no claim in scope exercises
an earlier instant, where the historical offsets (LMT before 1901, DST in
1940-1941/1945-1948/1986-1991) would differ.  A zone's offset is a function
of the UTC instant, as in `DstTzInfo.fromutc`. -/

def shanghaiOffsetSecs : Nat := 28800

def tzdb (tz : String) : Option (Nat → Nat) :=
  if tz = "UTC" then some (fun _ => 0)
  else if tz = "Asia/Shanghai" then some (fun _ => shanghaiOffsetSecs)
  else none

/-- `utc_time.astimezone(target_zone)`: add the zone offset to the UTC
instant; `datetime` addition past year 9999 raises OverflowError (`none`). -/
def shiftToZone (dt : DateTime) (offset : Nat) : Option DateTime :=
  let t := toSecs dt + offset
  if t ≤ maxSecs then some (ofSecs t dt.micro) else none

/-- src/hexo.py lines 25-39, `convert_utc_to_timezone(time_str, tz_str)`:
`time_str[:-1]` (drop the last character unconditionally), parse with the
fractional format falling back to the whole-second format, localize as UTC,
convert to the target zone, render as `%Y-%m-%d %H:%M:%S`. -/
def convert_utc_to_timezone (time_str tz_str : String) : Option String :=
  match parseTimestamp time_str.data.dropLast with
  | none => none
  | some utc_time =>
    match tzdb tz_str with
    | none => none
    | some rule =>
      match shiftToZone utc_time (rule (toSecs utc_time)) with
      | none => none
      | some local_time => some (formatDT local_time)

/-! ## Parsed documents (model of BeautifulSoup trees) -/

inductive Node where
  | element (name : String) (attrs : List (String × String)) (children : List Node) : Node
  | text (s : String) : Node

/-- Tag name; `none` for a NavigableString (whose `.name` is Python `None`). -/
def nameOf : Node → Option String
  | .element nm _ _ => some nm
  | .text _ => none

def childrenOf : Node → List Node
  | .element _ _ cs => cs
  | .text _ => []

/-- `tag.get(key)` / `tag[key]` on the attribute dictionary. -/
def getAttr (n : Node) (k : String) : Option String :=
  match n with
  | .element _ attrs _ => (attrs.find? (fun kv => kv.1 == k)).map (fun kv => kv.2)
  | .text _ => none

/-- Split a `class` attribute value on spaces, as BeautifulSoup presents
multi-valued attributes (its splitting on runs of arbitrary whitespace
coincides on the single-space-separated values in scope). -/
def splitSpaces : List Char → List (List Char)
  | [] => [[]]
  | c :: rest =>
    if c = ' ' then [] :: splitSpaces rest
    else match splitSpaces rest with
      | [] => [[c]]
      | l :: ls => (c :: l) :: ls

/-- `tag.get('class')`: the class list, or Python `None` if absent. -/
def classListOf (n : Node) : Option (List String) :=
  (getAttr n "class").map (fun v => (splitSpaces v.data).map String.mk)

mutual

/-- All descendants of a node in document (preorder) order, the search
domain of BeautifulSoup's `find` / `find_all`. -/
def Node.descendants : Node → List Node
  | .text _ => []
  | .element _ _ cs => descendantsList cs

def descendantsList : List Node → List Node
  | [] => []
  | n :: rest => n :: Node.descendants n ++ descendantsList rest

end

/-- `tag.find(...)`: first descendant satisfying the filter. -/
def findDesc (p : Node → Bool) (n : Node) : Option Node :=
  (Node.descendants n).find? p

/-- `tag.find_all(...)`: every descendant satisfying the filter. -/
def findAllDesc (p : Node → Bool) (n : Node) : List Node :=
  (Node.descendants n).filter p

def textOf : Node → Option String
  | .text s => some s
  | .element _ _ _ => none

/-- `tag.get_text()` / `tag.text`: concatenation of all descendant strings. -/
def getText : Node → String
  | .text s => s
  | n => String.join ((Node.descendants n).filterMap textOf)

/-- `tag.get_text(strip=True)`: each descendant string stripped, then
concatenated. -/
def getTextStrip : Node → String
  | .text s => pyStrip s
  | n => String.join (((Node.descendants n).filterMap textOf).map pyStrip)

/-- HTML void elements, which BeautifulSoup's html.parser serializes as
`<name/>`. -/
def voidTags : List String :=
  ["area", "base", "br", "col", "embed", "hr", "img", "input", "link",
   "meta", "param", "source", "track", "wbr"]

def strAttrs (attrs : List (String × String)) : String :=
  String.join (attrs.map (fun kv => " " ++ kv.1 ++ "=\"" ++ kv.2 ++ "\""))

mutual

/-- Python `str(element)`: a NavigableString is its text, a tag re-serializes
(entity escaping inside text is not modelled; no input in scope contains
markup-significant characters in text). -/
def strNode : Node → String
  | .text s => s
  | .element nm attrs cs =>
    if voidTags.contains nm then "<" ++ nm ++ strAttrs attrs ++ "/>"
    else "<" ++ nm ++ strAttrs attrs ++ ">" ++ strNodeList cs ++ "</" ++ nm ++ ">"

def strNodeList : List Node → String
  | [] => ""
  | n :: rest => strNode n ++ strNodeList rest

end

/-! ## Element filters used by the converter -/

def nameIs (s : String) (n : Node) : Bool := nameOf n == some s

def hasClass (c : String) (n : Node) : Bool := ((classListOf n).getD []).contains c

def isPostBodyDiv (n : Node) : Bool := nameIs "div" n && hasClass "post-body" n

def isTdCode (n : Node) : Bool := nameIs "td" n && hasClass "code" n

def isSpanLine (n : Node) : Bool := nameIs "span" n && hasClass "line" n

def isPostTitleH1 (n : Node) : Bool := nameIs "h1" n && hasClass "post-title" n

def isMetaWithProperty (p : String) (n : Node) : Bool :=
  nameIs "meta" n && (getAttr n "property" == some p)

def isSpanItempropName (n : Node) : Bool :=
  nameIs "span" n && (getAttr n "itemprop" == some "name")

/-! ## Body conversion (src/hexo.py 51-107) -/

/-- src/hexo.py 94-107, `handle_element(element)`: inline conversion used for
the children of a paragraph. -/
def handle_element (el : Node) : String :=
  if nameOf el = some "a" then
    "[" ++ getText el ++ "](" ++ pyStr (getAttr el "href") ++ ")"
  else if nameOf el = some "code" then
    "`" ++ getText el ++ "`"
  else if pyStartsWith (strNode el) "<br" then
    "\n\n"
  else
    strNode el

def tableHeaders (el : Node) : List String :=
  (findAllDesc (nameIs "th") el).map getTextStrip

def tableRows (el : Node) : List Node :=
  (findAllDesc (nameIs "tr") el).drop 1

def tableRowCells (r : Node) : List String :=
  (findAllDesc (nameIs "td") r).map getTextStrip

def codeLines (td : Node) : List String :=
  (findAllDesc isSpanLine td).map (fun sp => pyRStrip (getText sp))

/-- One iteration of the for-loop of src/hexo.py 59-90: the Markdown
contributed by one direct child of the post-body container.  `none` models
an uncaught exception: `int(elem.name[1])` raises for a tag name starting
with `h` whose second character is missing or not a digit. -/
def bodyChildMarkdown (el : Node) : Option String :=
  match el with
  | .text _ => some ""
  | .element nm _ _ =>
    if nm = "p" then
      some (pyJoin "" ((childrenOf el).map handle_element) ++ "\n\n")
    else if pyStartsWith nm "h" then
      match nm.data with
      | _ :: c :: _ =>
        if c.isDigit then
          some (String.mk (List.replicate (digitVal c) '#') ++ " " ++
            getTextStrip el ++ "\n\n")
        else none
      | _ => none
    else if nm = "figure" ∧ classListOf el = some ["highlight", "plaintext"] then
      match findDesc isTdCode el with
      | none => some ""
      | some td =>
        some ("\n```\n" ++ pyStrip (pyJoin "\n" (codeLines td)) ++ "\n```\n")
    else if nm = "table" then
      some (pyJoin "\n"
        (pyJoin " | " (tableHeaders el) ::
         pyJoin " | " (List.replicate (tableHeaders el).length "---") ::
         (tableRows el).map (fun r => pyJoin " | " (tableRowCells r))) ++ "\n\n")
    else some ""

/-- src/hexo.py 51-92, `html_to_markdown(soup)`: empty string when the
post-body container is absent, otherwise the concatenated per-child
renderings, stripped. -/
def html_to_markdown (doc : Node) : Option String :=
  match findDesc isPostBodyDiv doc with
  | none => some ""
  | some post_body =>
    ((childrenOf post_body).mapM bodyChildMarkdown).map
      (fun parts => pyStrip (pyJoin "" parts))

/-! ## Front matter (src/hexo.py 41-49 and 109-125) -/

structure FrontMatter where
  title : String
  updated : String
  date : String
  categories : Option String
  tags : List String
deriving DecidableEq

/-- src/hexo.py 41-49, `generate_front_matter(data)`. -/
def generate_front_matter (data : FrontMatter) : String :=
  let fm := "---\n" ++ "title: " ++ data.title ++ "\n" ++
    "updated: " ++ data.updated ++ "\n" ++
    "date: " ++ data.date ++ "\n" ++
    "categories: " ++ pyStr data.categories ++ "\n"
  let fm := if data.tags.isEmpty then fm
    else fm ++ "tags:\n" ++ pyJoin "\n" (data.tags.map (fun tag => "  - " ++ tag))
  fm ++ "\n---\n\n"

/-- `soup.find('meta', property=p)['content']`: `none` when the meta tag is
absent (subscripting Python `None` raises TypeError) or when it lacks a
`content` attribute (KeyError). -/
def findMetaContent (doc : Node) (p : String) : Option String :=
  (findDesc (isMetaWithProperty p) doc).bind (fun t => getAttr t "content")

/-- The strict metadata extraction of src/hexo.py 113-125 inside
`process_html_file`: any missing required element/attribute or unparsable
timestamp raises, modelled as `none`.  (Line 116-117's `published_time`
variable is computed and never used, so it is omitted: it cannot fail and
does not influence the result.) -/
def extract_front_matter_strict (doc : Node) : Option FrontMatter :=
  match findDesc isPostTitleH1 doc with
  | none => none
  | some titleTag =>
    let title := getTextStrip titleTag
    let categories := (findDesc isSpanItempropName doc).map getTextStrip
    match findMetaContent doc "article:published_time" with
    | none => none
    | some pu =>
      match convert_utc_to_timezone pu "Asia/Shanghai" with
      | none => none
      | some updated =>
        match findMetaContent doc "article:modified_time" with
        | none => none
        | some mo =>
          match convert_utc_to_timezone mo "Asia/Shanghai" with
          | none => none
          | some date =>
            match ((findAllDesc (isMetaWithProperty "article:tag") doc).mapM
                (fun t => getAttr t "content")) with
            | none => none
            | some tags => some ⟨title, updated, date, categories, tags⟩

/-! ## Line structure helpers (for stating facts about rendered blocks) -/

/-- Split a character list at newlines (`k` newlines produce `k+1`
segments). -/
def splitL : List Char → List (List Char)
  | [] => [[]]
  | c :: rest =>
    if c = '\n' then [] :: splitL rest
    else match splitL rest with
      | [] => [[c]]
      | l :: ls => (c :: l) :: ls

/-- Join lines, terminating each with a newline. -/
def lineJoin : List (List Char) → List Char
  | [] => []
  | l :: ls => l ++ '\n' :: lineJoin ls

/-- Does a line start with `categories:`? -/
def catLineB (l : List Char) : Bool := List.isPrefixOf "categories:".data l

/-- Does a line start with `tags:`? -/
def tagsLineB (l : List Char) : Bool := List.isPrefixOf "tags:".data l

/-- The exact lines of a rendered front-matter block (when no field value
contains a newline). -/
def fmLines (fm : FrontMatter) : List (List Char) :=
  ["---".data,
   "title: ".data ++ fm.title.data,
   "updated: ".data ++ fm.updated.data,
   "date: ".data ++ fm.date.data,
   "categories: ".data ++ (pyStr fm.categories).data] ++
  (if fm.tags.isEmpty then [[]]
   else "tags:".data :: fm.tags.map (fun tag => "  - ".data ++ tag.data)) ++
  ["---".data, []]

/-- No field value of a front-matter record contains a newline (true of
every record the extractor produces from single-line metadata). -/
def noNewlines (fm : FrontMatter) : Prop :=
  '\n' ∉ fm.title.data ∧ '\n' ∉ fm.updated.data ∧ '\n' ∉ fm.date.data ∧
  '\n' ∉ (pyStr fm.categories).data ∧ ∀ tag ∈ fm.tags, '\n' ∉ tag.data

instance (fm : FrontMatter) : Decidable (noNewlines fm) := by
  unfold noNewlines; infer_instance

/-- Membership of an unrecognized kind: a direct child the body converter's
dispatch matches no branch for, amended to exclude names starting with `h`
(which the code treats as headings or crashes on). -/
def unhandledChild (el : Node) : Bool :=
  match el with
  | .text _ => true
  | .element nm _ _ =>
    !(nm == "p") && !(pyStartsWith nm "h") &&
    !(nm == "figure" && classListOf el == some ["highlight", "plaintext"]) &&
    !(nm == "table")

/-! ## Concrete documents used as evaluation inputs -/

def exampleTable : Node :=
  .element "table" []
    [.element "tr" [] [.element "th" [] [.text "H1"], .element "th" [] [.text "H2"]],
     .element "tr" [] [.element "td" [] [.text "a"], .element "td" [] [.text "b"]],
     .element "tr" [] [.element "td" [] [.text "c"], .element "td" [] [.text "d"]]]

def exampleFigure : Node :=
  .element "figure" [("class", "highlight plaintext")]
    [.element "table" [] [.element "tr" []
      [.element "td" [("class", "code")]
        [.element "span" [("class", "line")] [.text "a "],
         .element "span" [("class", "line")] [.text "b"],
         .element "span" [("class", "line")] [.text "c"]]]]]

def exampleDocHr : Node :=
  .element "[document]" []
    [.element "div" [("class", "post-body")] [.element "hr" [] []]]

def exampleDocFull : Node :=
  .element "[document]" []
    [.element "h1" [("class", "post-title")] [.text "My Post"],
     .element "span" [("itemprop", "name")] [.text "Tech"],
     .element "meta" [("property", "article:published_time"),
       ("content", "2024-06-15T10:30:00Z")] [],
     .element "meta" [("property", "article:modified_time"),
       ("content", "2024-01-01T00:00:00.000Z")] [],
     .element "meta" [("property", "article:tag"), ("content", "x")] []]

def exampleDocNoPublished : Node :=
  .element "[document]" []
    [.element "h1" [("class", "post-title")] [.text "My Post"],
     .element "meta" [("property", "article:modified_time"),
       ("content", "2024-01-01T00:00:00.000Z")] []]

/-! ## Helper lemmas -/

theorem strData_append (a b : String) : (a ++ b).data = a.data ++ b.data := rfl

theorem digitChar_mod10_isDigit (n : Nat) : (Nat.digitChar (n % 10)).isDigit = true :=
  (by decide : ∀ m, m < 10 → (Nat.digitChar m).isDigit = true) _ (Nat.mod_lt _ (by norm_num))

/-- The strftime model always renders in the `YYYY-MM-DD HH:MM:SS` shape. -/
theorem formatDT_isFormat (dt : DateTime) : isTimestampFormat (formatDT dt) = true := by
  simp [formatDT, isTimestampFormat, pad4, pad2, digitChar_mod10_isDigit]

/-! ## Claim C1 -/

/-- Claim C1 (amended): for every input accepted by one of the two parse
formats, normalize tries the fractional-second parse first and falls back to
the whole-second parse, converts the instant to the target zone and — as
long as the shifted instant still fits in `datetime`'s year range, i.e.
the addition does not overflow past 9999-12-31 23:59:59 — returns a string
of the shape `YYYY-MM-DD HH:MM:SS`; the two concrete examples of the spec
hold. -/
theorem claim_C1_normalize :
    (∀ (s : String) (dt : DateTime),
      parseTimestamp s.data.dropLast = some dt →
      toSecs dt + shanghaiOffsetSecs ≤ maxSecs →
      ∃ r, convert_utc_to_timezone s "Asia/Shanghai" = some r ∧
        isTimestampFormat r = true)
    ∧ (∀ (cs : List Char) (dt : DateTime),
        parseFrac cs = some dt → parseTimestamp cs = some dt)
    ∧ (∀ cs : List Char,
        parseFrac cs = none → parseTimestamp cs = parseWhole cs)
    ∧ convert_utc_to_timezone "2024-06-15T10:30:00Z" "Asia/Shanghai" =
        some "2024-06-15 18:30:00"
    ∧ convert_utc_to_timezone "2024-01-01T00:00:00.000Z" "UTC" =
        some "2024-01-01 00:00:00" := by
  refine ⟨?_, ?_, ?_, by decide, by decide⟩
  · intro s dt hp hb
    refine ⟨formatDT (ofSecs (toSecs dt + shanghaiOffsetSecs) dt.micro), ?_,
      formatDT_isFormat _⟩
    unfold convert_utc_to_timezone
    rw [hp]
    have hz : tzdb "Asia/Shanghai" = some (fun _ => shanghaiOffsetSecs) := rfl
    rw [hz]
    simp only [shiftToZone]
    rw [if_pos hb]
  · intro cs dt h
    simp [parseTimestamp, h]
  · intro cs h
    simp [parseTimestamp, h, Option.orElse]

/-- Claim C1, counterexample to the original universal statement: the input
`9999-12-31T16:00:00Z` is in the accepted whole-second form (it parses), yet
normalize does not return a formatted string: the conversion to
Asia/Shanghai crosses the end of year 9999 and raises OverflowError. -/
theorem claim_C1_counterexample :
    parseTimestamp ("9999-12-31T16:00:00Z".data.dropLast) =
      some ⟨9999, 12, 31, 16, 0, 0, 0⟩ ∧
    convert_utc_to_timezone "9999-12-31T16:00:00Z" "Asia/Shanghai" = none :=
  ⟨by decide, by decide⟩

/-- Claim C1, witness: the amended theorem applied at a concrete input. -/
theorem claim_C1_witness :
    ∃ r, convert_utc_to_timezone "2024-06-15T10:30:00Z" "Asia/Shanghai" =
      some r ∧ isTimestampFormat r = true :=
  claim_C1_normalize.1 "2024-06-15T10:30:00Z" ⟨2024, 6, 15, 10, 30, 0, 0⟩
    (by decide) (by decide)

/-! ## Claim C8 -/

/-- Claim C8: `time_str[:-1]` removes the final character unconditionally,
so replacing the final character of any input by any character gives the
identical result — in particular, for any input on which normalize
succeeds, the variant with its trailing `Z` replaced succeeds with the same
result; inputs lacking the trailing `Z` are not rejected. -/
theorem claim_C8_strip_last :
    (∀ (t : String) (c : Char) (tz : String),
      convert_utc_to_timezone (String.mk (t.data.dropLast ++ [c])) tz =
        convert_utc_to_timezone t tz)
    ∧ (∀ (t : String) (c : Char) (tz r : String),
      convert_utc_to_timezone t tz = some r →
      convert_utc_to_timezone (String.mk (t.data.dropLast ++ [c])) tz = some r) := by
  have h1 : ∀ (t : String) (c : Char) (tz : String),
      convert_utc_to_timezone (String.mk (t.data.dropLast ++ [c])) tz =
        convert_utc_to_timezone t tz := by
    intro t c tz
    unfold convert_utc_to_timezone
    have hd : (String.mk (t.data.dropLast ++ [c])).data.dropLast = t.data.dropLast := by
      simp
    rw [hd]
  exact ⟨h1, fun t c tz r hr => (h1 t c tz).trans hr⟩

/-- Claim C8, witness: replacing the trailing `Z` by `X` leaves the result
unchanged on a concrete valid timestamp. -/
theorem claim_C8_witness :
    convert_utc_to_timezone
      (String.mk ("2024-06-15T10:30:00Z".data.dropLast ++ ['X'])) "Asia/Shanghai" =
      some "2024-06-15 18:30:00" :=
  claim_C8_strip_last.2 "2024-06-15T10:30:00Z" 'X' "Asia/Shanghai" _ (by decide)

/-! ## Claim C2 -/

/-- Claim C2: the renderer produces exactly the expected ten-line block on
the spec's example record, and rendering is deterministic (a pure function
of the record). -/
theorem claim_C2_render :
    generate_front_matter
      ⟨"A", "2024-01-01 00:00:00", "2024-01-02 00:00:00", some "Tech", ["x", "y"]⟩ =
      "---\ntitle: A\nupdated: 2024-01-01 00:00:00\ndate: 2024-01-02 00:00:00\ncategories: Tech\ntags:\n  - x\n  - y\n---\n\n"
    ∧ ∀ (d1 d2 : FrontMatter), d1 = d2 →
        generate_front_matter d1 = generate_front_matter d2 :=
  ⟨by decide, fun d1 d2 h => h ▸ rfl⟩

/-- Claim C2, witness: determinism applied at a concrete record. -/
theorem claim_C2_witness :
    generate_front_matter ⟨"A", "U", "D", some "C", ["x"]⟩ =
      generate_front_matter ⟨"A", "U", "D", some "C", ["x"]⟩ :=
  claim_C2_render.2 ⟨"A", "U", "D", some "C", ["x"]⟩ ⟨"A", "U", "D", some "C", ["x"]⟩ rfl


/-! ## Claim C4 -/

/-- Claim C4, counterexample: an `<hr>` direct child of the post-body
container is of unrecognized kind, yet the converter does not skip it — it
raises (`elem.name.startswith('h')` sends it to the heading branch, where
`int('r')` raises ValueError), and the whole conversion fails. -/
theorem claim_C4_counterexample :
    bodyChildMarkdown (.element "hr" [] []) = none ∧
    html_to_markdown exampleDocHr = none :=
  ⟨by decide, by decide⟩

/-- Claim C4 (amended): a direct child of unrecognized kind whose tag name
does not start with `h` is skipped silently (no error, empty contribution);
but a child whose name starts with `h` is sent to the heading branch — a
digit second character yields a heading of that level, anything else (such
as `<hr>`) raises and aborts the conversion. -/
theorem claim_C4_skip :
    (∀ el : Node, unhandledChild el = true → bodyChildMarkdown el = some "")
    ∧ (∀ (attrs : List (String × String)) (cs : List Node),
        bodyChildMarkdown (.element "hr" attrs cs) = none) := by
  constructor
  · intro el h
    match el with
    | .text s => rfl
    | .element nm attrs cs =>
      simp only [unhandledChild, Bool.and_eq_true, Bool.not_eq_true',
        beq_iff_eq, Bool.and_eq_false_iff, beq_eq_false_iff_ne, ne_eq] at h
      obtain ⟨⟨⟨h1, h2⟩, h3⟩, h4⟩ := h
      simp only [bodyChildMarkdown]
      rw [if_neg h1, if_neg (by simp [h2]), if_neg ?_, if_neg h4]
      rcases h3 with h3 | h3
      · exact fun hc => h3 hc.1
      · exact fun hc => h3 hc.2
  · intro attrs cs
    simp [bodyChildMarkdown, pyStartsWith, List.isPrefixOf]

/-- Claim C4, witness: a `<blockquote>` child is skipped with no output and
no error. -/
theorem claim_C4_witness :
    bodyChildMarkdown (.element "blockquote" [] [.text "q"]) = some "" :=
  claim_C4_skip.1 (.element "blockquote" [] [.text "q"]) (by decide)

/-! ## Claim C5 -/

/-- Claim C5: inside a paragraph, a hyperlink renders as
`[visible text](href)`, inline code as its text in backticks, a line break
as two newlines, anything else as its raw serialization; the paragraph is
the concatenation of its children's renderings plus two newlines, as on the
spec's concrete example. -/
theorem claim_C5_inline :
    (∀ (attrs : List (String × String)) (cs : List Node) (href : String),
      getAttr (Node.element "a" attrs cs) "href" = some href →
      handle_element (.element "a" attrs cs) =
        "[" ++ getText (.element "a" attrs cs) ++ "](" ++ href ++ ")")
    ∧ (∀ (attrs : List (String × String)) (cs : List Node),
        handle_element (.element "code" attrs cs) =
          "`" ++ getText (.element "code" attrs cs) ++ "`")
    ∧ (∀ attrs : List (String × String), handle_element (.element "br" attrs []) = "\n\n")
    ∧ (∀ el : Node, nameOf el ≠ some "a" → nameOf el ≠ some "code" →
        pyStartsWith (strNode el) "<br" = false → handle_element el = strNode el)
    ∧ (∀ (attrs : List (String × String)) (cs : List Node),
        bodyChildMarkdown (.element "p" attrs cs) =
          some (pyJoin "" (cs.map handle_element) ++ "\n\n"))
    ∧ bodyChildMarkdown
        (.element "p" [] [.element "a" [("href", "http://x")] [.text "here"]]) =
        some "[here](http://x)\n\n" := by
  refine ⟨?_, ?_, ?_, ?_, ?_, by decide⟩
  · intro attrs cs href h
    simp [handle_element, nameOf, h, pyStr]
  · intro attrs cs
    simp [handle_element, nameOf]
  · intro attrs
    simp only [handle_element, nameOf]
    have hs : strNode (.element "br" attrs []) = "<" ++ "br" ++ strAttrs attrs ++ "/>" := by
      simp [strNode, voidTags]
    rw [if_neg (by simp), if_neg (by simp),
      if_pos (by rw [hs]; simp [pyStartsWith, strData_append, List.isPrefixOf])]
  · intro el h1 h2 h3
    simp only [handle_element]
    rw [if_neg h1, if_neg h2, if_neg (by simp [h3])]
  · intro attrs cs
    simp [bodyChildMarkdown, childrenOf]

/-- Claim C5, witness: the hyperlink rule applied at a concrete anchor. -/
theorem claim_C5_witness :
    handle_element (.element "a" [("href", "http://x")] [.text "here"]) =
      "[" ++ getText (.element "a" [("href", "http://x")] [.text "here"]) ++
        "](" ++ "http://x" ++ ")" :=
  claim_C5_inline.1 [("href", "http://x")] [.text "here"] "http://x" (by decide)

/-! ## Claim C6 -/

/-- Claim C6: a table child renders as the header texts joined by `" | "`,
a separator of one `---` per header column, one line per row after the
first with its cell texts joined by `" | "`, and a trailing blank line; the
spec's 2-column 2-data-row example yields exactly the 4-line block. -/
theorem claim_C6_table :
    (∀ (attrs : List (String × String)) (cs : List Node),
      bodyChildMarkdown (.element "table" attrs cs) =
        some (pyJoin "\n"
          (pyJoin " | " (tableHeaders (.element "table" attrs cs)) ::
           pyJoin " | " (List.replicate
             (tableHeaders (.element "table" attrs cs)).length "---") ::
           (tableRows (.element "table" attrs cs)).map
             (fun r => pyJoin " | " (tableRowCells r))) ++ "\n\n"))
    ∧ bodyChildMarkdown exampleTable = some "H1 | H2\n--- | ---\na | b\nc | d\n\n"
    ∧ splitL ("H1 | H2\n--- | ---\na | b\nc | d\n\n".data) =
        ["H1 | H2".data, "--- | ---".data, "a | b".data, "c | d".data, [], []] := by
  refine ⟨?_, by decide, by decide⟩
  intro attrs cs
  simp [bodyChildMarkdown, pyStartsWith, List.isPrefixOf]

/-! ## Claim C10 -/

/-- Claim C10: a `highlight plaintext` figure with no nested `td.code` cell
contributes nothing and raises no error; with such a cell, it emits a
newline, an opening fence, the line-span texts right-stripped, joined by
newlines and stripped as a block, a closing fence and a trailing newline. -/
theorem claim_C10_figure :
    (∀ (attrs : List (String × String)) (cs : List Node),
      classListOf (Node.element "figure" attrs cs) = some ["highlight", "plaintext"] →
      (findDesc isTdCode (Node.element "figure" attrs cs) = none →
        bodyChildMarkdown (.element "figure" attrs cs) = some "")
      ∧ (∀ td : Node, findDesc isTdCode (Node.element "figure" attrs cs) = some td →
          bodyChildMarkdown (.element "figure" attrs cs) =
            some ("\n```\n" ++ pyStrip (pyJoin "\n" (codeLines td)) ++ "\n```\n")))
    ∧ bodyChildMarkdown exampleFigure = some "\n```\na\nb\nc\n```\n" := by
  refine ⟨?_, by decide⟩
  intro attrs cs hcl
  constructor
  · intro hnone
    simp [bodyChildMarkdown, pyStartsWith, List.isPrefixOf, hcl, hnone]
  · intro td hsome
    simp [bodyChildMarkdown, pyStartsWith, List.isPrefixOf, hcl, hsome]

/-- Claim C10, witness: the no-cell case applied at a concrete figure. -/
theorem claim_C10_witness :
    bodyChildMarkdown (.element "figure" [("class", "highlight plaintext")] []) =
      some "" :=
  (claim_C10_figure.1 [("class", "highlight plaintext")] [] (by decide)).1 rfl

/-! ## Claim C7 -/

/-- Claim C7: in the strict extraction path, `updated` is the
publication-time metadata value and `date` the modification-time metadata
value, each passed through the timezone normalizer with the fixed zone
Asia/Shanghai; extraction produces no record whenever either underlying
metadata attribute is absent — no fallback value is substituted. -/
theorem claim_C7_strict_dates :
    (∀ doc : Node, findMetaContent doc "article:published_time" = none →
        extract_front_matter_strict doc = none)
    ∧ (∀ doc : Node, findMetaContent doc "article:modified_time" = none →
        extract_front_matter_strict doc = none)
    ∧ (∀ (doc : Node) (fm : FrontMatter), extract_front_matter_strict doc = some fm →
        ∃ pu mo, findMetaContent doc "article:published_time" = some pu ∧
          findMetaContent doc "article:modified_time" = some mo ∧
          convert_utc_to_timezone pu "Asia/Shanghai" = some fm.updated ∧
          convert_utc_to_timezone mo "Asia/Shanghai" = some fm.date) := by
  refine ⟨?_, ?_, ?_⟩
  · intro doc h
    unfold extract_front_matter_strict
    split
    · rfl
    · rw [h]
  · intro doc h
    unfold extract_front_matter_strict
    split
    · rfl
    split
    · rfl
    split
    · rfl
    rw [h]
  · intro doc fm h
    unfold extract_front_matter_strict at h
    split at h
    · simp at h
    split at h
    · simp at h
    rename_i pu hpu
    split at h
    · simp at h
    rename_i up hup
    split at h
    · simp at h
    rename_i mo hmo
    split at h
    · simp at h
    rename_i dte hdte
    split at h
    · simp at h
    rename_i tags htags
    obtain rfl := (Option.some.injEq _ _ ▸ h : _ = fm)
    exact ⟨pu, mo, hpu, hmo, hup, hdte⟩

/-- Claim C7, witness: on a complete concrete document the extracted
`updated` and `date` are the normalized published/modified metadata values,
and on a document lacking the published-time meta the extraction fails. -/
theorem claim_C7_witness :
    extract_front_matter_strict exampleDocNoPublished = none ∧
    ∃ pu mo, findMetaContent exampleDocFull "article:published_time" = some pu ∧
      findMetaContent exampleDocFull "article:modified_time" = some mo ∧
      convert_utc_to_timezone pu "Asia/Shanghai" =
        some (FrontMatter.mk "My Post" "2024-06-15 18:30:00" "2024-01-01 08:00:00"
          (some "Tech") ["x"]).updated ∧
      convert_utc_to_timezone mo "Asia/Shanghai" =
        some (FrontMatter.mk "My Post" "2024-06-15 18:30:00" "2024-01-01 08:00:00"
          (some "Tech") ["x"]).date :=
  ⟨claim_C7_strict_dates.1 exampleDocNoPublished (by decide),
   claim_C7_strict_dates.2.2 exampleDocFull
     ⟨"My Post", "2024-06-15 18:30:00", "2024-01-01 08:00:00", some "Tech", ["x"]⟩
     (by decide)⟩

/-! ## Line-structure lemmas for the front-matter renderer -/

theorem splitL_line (l : List Char) (h : '\n' ∉ l) (rest : List Char) :
    splitL (l ++ '\n' :: rest) = l :: splitL rest := by
  induction l with
  | nil => simp [splitL]
  | cons c cs ih =>
    have hc : c ≠ '\n' := fun hh => h (hh ▸ List.mem_cons_self c cs)
    have hcs : '\n' ∉ cs := fun hh => h (List.mem_cons_of_mem c hh)
    simp [splitL, hc, ih hcs]

theorem splitL_lineJoin (lines : List (List Char)) (h : ∀ l ∈ lines, '\n' ∉ l) :
    splitL (lineJoin lines) = lines ++ [[]] := by
  induction lines with
  | nil => simp [lineJoin, splitL]
  | cons l ls ih =>
    have h1 : '\n' ∉ l := h l (List.mem_cons_self l ls)
    have h2 : ∀ x ∈ ls, '\n' ∉ x := fun x hx => h x (List.mem_cons_of_mem l hx)
    simp [lineJoin, splitL_line l h1, ih h2]

theorem lineJoin_append (xs ys : List (List Char)) :
    lineJoin (xs ++ ys) = lineJoin xs ++ lineJoin ys := by
  induction xs with
  | nil => simp [lineJoin]
  | cons x xs ih => simp [lineJoin, ih]

theorem tagsJoin_data (a : String) (ts : List String) (R : List Char) :
    (pyJoin "\n" ((a :: ts).map (fun tg => "  - " ++ tg))).data ++ '\n' :: R =
      lineJoin ((a :: ts).map (fun tg => "  - ".data ++ tg.data)) ++ R := by
  induction ts generalizing a with
  | nil => simp [pyJoin, lineJoin, strData_append]
  | cons b ts ih =>
    simp only [List.map_cons, pyJoin, strData_append] at *
    simp only [lineJoin, List.append_assoc] at *
    simp [ih b]

/-- The rendered front-matter block is exactly the newline-join of
`fmLines`. -/
theorem gfm_data_eq (fm : FrontMatter) :
    (generate_front_matter fm).data = lineJoin (fmLines fm) := by
  obtain ⟨t, u, d, c, tags⟩ := fm
  match tags with
  | [] => simp [generate_front_matter, fmLines, lineJoin, strData_append]
  | a :: ts =>
    simp only [generate_front_matter, fmLines, List.isEmpty_cons, Bool.false_eq_true,
      if_false, if_neg, strData_append, List.append_assoc]
    rw [show (['\n', '-', '-', '-', '\n', '\n'] : List Char) =
      '\n' :: ['-', '-', '-', '\n', '\n'] from rfl]
    rw [tagsJoin_data]
    simp [lineJoin_append, lineJoin, strData_append, List.append_assoc]

theorem catLineB_dash (x : List Char) : catLineB ('-' :: x) = false := by
  simp [catLineB, List.isPrefixOf]

theorem catLineB_t (x : List Char) : catLineB ('t' :: x) = false := by
  simp [catLineB, List.isPrefixOf]

theorem catLineB_u (x : List Char) : catLineB ('u' :: x) = false := by
  simp [catLineB, List.isPrefixOf]

theorem catLineB_d (x : List Char) : catLineB ('d' :: x) = false := by
  simp [catLineB, List.isPrefixOf]

theorem catLineB_space (x : List Char) : catLineB (' ' :: x) = false := by
  simp [catLineB, List.isPrefixOf]

theorem catLineB_nil : catLineB [] = false := by decide

theorem catLineB_c (x : List Char) :
    catLineB ('c' :: 'a' :: 't' :: 'e' :: 'g' :: 'o' :: 'r' :: 'i' :: 'e' :: 's' :: ':' :: x) = true := by
  simp [catLineB, List.isPrefixOf]

theorem tagsLineB_dash (x : List Char) : tagsLineB ('-' :: x) = false := by
  simp [tagsLineB, List.isPrefixOf]

theorem tagsLineB_ti (x : List Char) : tagsLineB ('t' :: 'i' :: x) = false := by
  simp [tagsLineB, List.isPrefixOf]

theorem tagsLineB_u (x : List Char) : tagsLineB ('u' :: x) = false := by
  simp [tagsLineB, List.isPrefixOf]

theorem tagsLineB_d (x : List Char) : tagsLineB ('d' :: x) = false := by
  simp [tagsLineB, List.isPrefixOf]

theorem tagsLineB_c (x : List Char) : tagsLineB ('c' :: x) = false := by
  simp [tagsLineB, List.isPrefixOf]

theorem tagsLineB_nil : tagsLineB [] = false := by decide

theorem fmLines_noNL (fm : FrontMatter) (h : noNewlines fm) :
    ∀ l ∈ fmLines fm, '\n' ∉ l := by
  obtain ⟨t, u, d, c, tags⟩ := fm
  obtain ⟨h1, h2, h3, h4, h5⟩ := h
  have hstep : ∀ lit x : List Char, '\n' ∉ lit → '\n' ∉ x → '\n' ∉ lit ++ x := by
    intro lit x ha hb hmem
    rcases List.mem_append.1 hmem with hm | hm
    · exact ha hm
    · exact hb hm
  intro l hl
  simp only [fmLines, List.mem_append, List.mem_cons, List.not_mem_nil, or_false] at hl
  rcases hl with (hl5 | hl) | (rfl | rfl)
  · rcases hl5 with rfl | rfl | rfl | rfl | rfl
    · decide
    · exact hstep _ _ (by decide) h1
    · exact hstep _ _ (by decide) h2
    · exact hstep _ _ (by decide) h3
    · exact hstep _ _ (by decide) h4
  · by_cases ht : tags.isEmpty
    · rw [if_pos ht] at hl
      simp only [List.mem_singleton] at hl
      subst hl
      simp
    · rw [if_neg ht] at hl
      simp only [List.mem_cons, List.mem_map] at hl
      rcases hl with rfl | ⟨tag, htag, rfl⟩
      · decide
      · exact hstep _ _ (by decide) (h5 tag htag)
  · decide
  · simp

/-- Line decomposition of a rendered block whose field values are
newline-free. -/
theorem splitL_gfm (fm : FrontMatter) (h : noNewlines fm) :
    splitL (generate_front_matter fm).data = fmLines fm ++ [[]] := by
  rw [gfm_data_eq]
  exact splitL_lineJoin _ (fmLines_noNL fm h)

/-! ## Claim C9 -/

/-- Claim C9: when `categories` is absent the renderer still emits a
`categories:` line whose value is the literal text `None`, and (for any
categories value) the block contains exactly one `categories:` line. -/
theorem claim_C9_categories_none :
    ∀ fm : FrontMatter, noNewlines fm →
      (fm.categories = none →
        "categories: None".data ∈ splitL (generate_front_matter fm).data) ∧
      (splitL (generate_front_matter fm).data).countP catLineB = 1 := by
  intro fm h
  constructor
  · intro hc
    rw [splitL_gfm fm h]
    simp [fmLines, hc, pyStr]
  · rw [splitL_gfm fm h]
    by_cases ht : fm.tags.isEmpty
    · simp [fmLines, ht, List.countP_append, List.countP_cons, catLineB_dash,
        catLineB_nil, catLineB_t, catLineB_u, catLineB_d, catLineB_c]
    · simp [fmLines, ht, List.countP_append, List.countP_cons, Function.comp,
        catLineB_dash, catLineB_nil, catLineB_t, catLineB_u, catLineB_d,
        catLineB_c, catLineB_space]

/-- Claim C9, witness: an absent category renders the line
`categories: None`, the block's only `categories:` line. -/
theorem claim_C9_witness :
    ("categories: None".data ∈
      splitL (generate_front_matter ⟨"T", "U", "D", none, ["x"]⟩).data) ∧
    (splitL (generate_front_matter ⟨"T", "U", "D", none, ["x"]⟩).data).countP
      catLineB = 1 :=
  ⟨(claim_C9_categories_none ⟨"T", "U", "D", none, ["x"]⟩ (by decide)).1 rfl,
   (claim_C9_categories_none ⟨"T", "U", "D", none, ["x"]⟩ (by decide)).2⟩

/-! ## Claim C3 -/

/-- Claim C3, counterexample: with empty tags the code emits an empty line
between the `categories:` line and the closing `---` (the renderer always
appends `"\n---\n\n"` to a buffer already ending in a newline), so the
closing delimiter does not immediately follow the categories line as the
claim states. -/
theorem claim_C3_counterexample :
    generate_front_matter ⟨"A", "U", "D", some "C", []⟩ =
      "---\ntitle: A\nupdated: U\ndate: D\ncategories: C\n\n---\n\n" ∧
    ¬generate_front_matter ⟨"A", "U", "D", some "C", []⟩ =
      "---\ntitle: A\nupdated: U\ndate: D\ncategories: C\n---\n\n" :=
  ⟨by decide, by decide⟩

/-- Claim C3 (amended): with empty tags the rendered block contains no
`tags:` line, and consists of the opening `---` line, the four key-value
lines, then one empty line, then the closing `---` line, then a blank
line. -/
theorem claim_C3_no_tags :
    ∀ (t u d : String) (c : Option String),
      '\n' ∉ t.data → '\n' ∉ u.data → '\n' ∉ d.data → '\n' ∉ (pyStr c).data →
      splitL (generate_front_matter ⟨t, u, d, c, []⟩).data =
        ["---".data, "title: ".data ++ t.data, "updated: ".data ++ u.data,
         "date: ".data ++ d.data, "categories: ".data ++ (pyStr c).data,
         [], "---".data, [], []] ∧
      (splitL (generate_front_matter ⟨t, u, d, c, []⟩).data).countP tagsLineB = 0 := by
  intro t u d c h1 h2 h3 h4
  have hnn : noNewlines ⟨t, u, d, c, []⟩ := ⟨h1, h2, h3, h4, by simp⟩
  rw [splitL_gfm _ hnn]
  constructor
  · simp [fmLines]
  · simp [fmLines, List.countP_append, List.countP_cons, tagsLineB_dash,
      tagsLineB_nil, tagsLineB_ti, tagsLineB_u, tagsLineB_d, tagsLineB_c]

/-- Claim C3, witness: the amended line structure at a concrete record. -/
theorem claim_C3_witness :
    splitL (generate_front_matter ⟨"A", "U", "D", some "C", []⟩).data =
      ["---".data, "title: ".data ++ "A".data, "updated: ".data ++ "U".data,
       "date: ".data ++ "D".data, "categories: ".data ++ (pyStr (some "C")).data,
       [], "---".data, [], []] ∧
    (splitL (generate_front_matter ⟨"A", "U", "D", some "C", []⟩).data).countP
      tagsLineB = 0 :=
  claim_C3_no_tags "A" "U" "D" (some "C") (by decide) (by decide) (by decide) (by decide)
